import Mathlib

/-!
Verification of the itrader transaction-orchestration engine.

This file gives a shallow embedding of the core data model and operations of
the repository (transaction ingestion and lifecycle, Bybit account selection,
the buyer-negotiation chat state machine, receipt validation and matching,
and the receipt timeout check), translated from the Python sources:

* `src/core/monitoring.py`         (`MonitoringSystem.process_gate_transaction`)
* `src/core/transaction_processor.py` (`TransactionProcessor`)
* `src/core/chat_bot.py`           (`P2PChatBot._check_for_receipt`, `_move_to_fool_pool`)
* `src/ocr/receipt_processor.py`   (`ReceiptProcessor.match_receipt_to_transaction`)
* `chat_flow.py`                   (`ChatFlowManager`)
* `transaction_manager.py`         (`TransactionManager`, `Transaction`)

Conventions of the embedding: the Postgres `transactions` table is a list of
rows; SQL `UPDATE ... WHERE id = t` maps every row with that id; monetary
amounts (Python floats) are modelled as rationals; wall-clock timestamps are
rationals (minutes); results of external API calls (Bybit ad creation, the
per-account active-ad count, OCR field extraction) are passed in as explicit
arguments, since the code only branches on their returned values.
-/

/-- Python truthiness of an `Optional[str]`: `None` and `""` are falsy. -/
def pyTruthyStr : Option String → Bool
  | none => false
  | some s => !(s == "")

/-- A row of the `transactions` table (the columns the core logic reads or
writes: see the SQL statements in `monitoring.py`, `transaction_processor.py`,
`chat_bot.py` and `receipt_processor.py`). -/
structure TxRow where
  id : Nat
  gate_transaction_id : String
  status : String
  gate_account_id : Nat
  amount_rub : ℚ
  wallet : String
  bank_label : String
  bank_code : String
  error_reason : Option String
  updated_at : ℚ
  bybit_account_id : Option Nat
  bybit_ad_id : Option String
deriving Repr, DecidableEq

/-- `SELECT ... FROM transactions WHERE id = tid` (first row with the id). -/
def getRow (rows : List TxRow) (tid : Nat) : Option TxRow :=
  rows.find? (fun r => r.id == tid)

/-- `UPDATE transactions SET ... WHERE id = tid`: apply `f` to every row whose
primary key equals `tid`. -/
def updRows (rows : List TxRow) (tid : Nat) (f : TxRow → TxRow) : List TxRow :=
  rows.map (fun r => if r.id == tid then f r else r)

/-- The terminal lifecycle statuses named by the specification. -/
def terminal_statuses : List String :=
  ["rejected", "fool_pool", "released", "cancelled", "error"]

namespace Monitoring

/-- A pending transaction as reported by a Gate account, after the field
extraction at the top of `MonitoringSystem.process_gate_transaction`
(`tx['id']`, the RUB amount `tx['amount']['trader']['643']`, `tx['wallet']`,
`tx['bank']['label']`, `tx['bank']['code']`). -/
structure GateTx where
  id : String
  amount_rub : ℚ
  wallet : String
  bank_label : String
  bank_code : String
deriving Repr, DecidableEq

/-- State touched by ingestion: the `transactions` table, the serial primary
key counter behind `RETURNING id`, and the processor's in-memory queue
(`TransactionProcessor.add_to_queue`). -/
structure MonState where
  transactions : List TxRow
  next_id : Nat
  queue : List Nat
deriving Repr, DecidableEq

/-- `SELECT id FROM transactions WHERE gate_transaction_id = %s` returned a
row. -/
def hasExternalId (s : MonState) (eid : String) : Bool :=
  s.transactions.any (fun r => r.gate_transaction_id == eid)

/-- Number of Transaction records carrying the external (Gate) id. -/
def countExternalId (s : MonState) (eid : String) : Nat :=
  (s.transactions.filter (fun r => r.gate_transaction_id == eid)).length

/-- `MonitoringSystem.process_gate_transaction` (monitoring.py lines 234-284):
skip non-positive amounts; if a row with the Gate id already exists this is a
no-op; otherwise insert a fresh `pending` row and enqueue its id. -/
def process_gate_transaction (gate_account_id : Nat) (tx : GateTx)
    (s : MonState) : MonState :=
  if tx.amount_rub ≤ 0 then s
  else if hasExternalId s tx.id then s
  else
    { transactions := s.transactions ++
        [{ id := s.next_id
           gate_transaction_id := tx.id
           status := "pending"
           gate_account_id := gate_account_id
           amount_rub := tx.amount_rub
           wallet := tx.wallet
           bank_label := tx.bank_label
           bank_code := tx.bank_code
           error_reason := none
           updated_at := 0
           bybit_account_id := none
           bybit_ad_id := none }]
      next_id := s.next_id + 1
      queue := s.queue ++ [s.next_id] }

/-- Observe the same Gate transaction `n` times in a row. -/
def observeN (gate_account_id : Nat) (tx : GateTx) : Nat → MonState → MonState
  | 0, s => s
  | n + 1, s => observeN gate_account_id tx n (process_gate_transaction gate_account_id tx s)

end Monitoring

namespace TransactionProcessor

/-- A Bybit account row (`bybit_accounts` with `is_active`) together with the
result of the external `SmartAdCreator.get_active_ads()` call for it, which
`find_available_bybit_account` compares against the capacity limit. -/
structure BybitAccount where
  id : Nat
  name : String
  is_active : Bool
  active_ads : Nat
deriving Repr, DecidableEq

/-- `TransactionProcessor.find_available_bybit_account` (lines 119-150):
scan active Bybit accounts in order and return the first whose active-ad
count is at most 1; `None` when every account is saturated. -/
def find_available_bybit_account (accounts : List BybitAccount) :
    Option BybitAccount :=
  (accounts.filter (fun a => a.is_active)).find? (fun a => a.active_ads ≤ 1)

/-- `TransactionProcessor.update_transaction_status` (lines 189-216): an
unconditional `UPDATE transactions SET status = %s [, error_reason = %s],
updated_at = CURRENT_TIMESTAMP WHERE id = %s`. -/
def update_transaction_status (rows : List TxRow) (tid : Nat) (status : String)
    (error_reason : Option String) (now : ℚ) : List TxRow :=
  if pyTruthyStr error_reason then
    updRows rows tid (fun r =>
      { r with status := status, error_reason := error_reason, updated_at := now })
  else
    updRows rows tid (fun r => { r with status := status, updated_at := now })

/-- `TransactionProcessor.process_transaction` (lines 62-117): look the
transaction up, mark it `processing`, reserve a Bybit account, then either
record the created ad and move to `waiting_response`, or mark the transaction
`error`. `ad_result` is the outcome of the external `create_p2p_ad` call. -/
def process_transaction (rows : List TxRow) (accounts : List BybitAccount)
    (tid : Nat) (ad_result : Option String) (now : ℚ) : List TxRow :=
  match getRow rows tid with
  | none => rows
  | some _ =>
    let rows1 := update_transaction_status rows tid "processing" none now
    match find_available_bybit_account accounts with
    | none =>
      update_transaction_status rows1 tid "error"
        (some "No available Bybit accounts") now
    | some acc =>
      match ad_result with
      | some ad_id =>
        updRows rows1 tid (fun r =>
          { r with bybit_account_id := some acc.id
                   bybit_ad_id := some ad_id
                   status := "waiting_response" })
      | none =>
        update_transaction_status rows1 tid "error"
          (some "Failed to create P2P ad") now

end TransactionProcessor

namespace ChatBot

/-- A chat message as returned by `P2POrderManager.get_chat_messages`; the
receipt check only reads its `contentType`. -/
structure ChatMsg where
  contentType : String
deriving Repr, DecidableEq

/-- Python `messages[-5:]`: the last five messages (all of them when fewer). -/
def last5 (msgs : List ChatMsg) : List ChatMsg :=
  msgs.drop (msgs.length - 5)

/-- The scan at the top of `_check_for_receipt`: some message among the last
five has `contentType == 'pdf'`. -/
def has_pdf (msgs : List ChatMsg) : Bool :=
  (last5 msgs).any (fun m => m.contentType == "pdf")

/-- State touched by the chat bot's receipt check: the `transactions` table
and the in-memory `monitored_ads` map (`ad_id -> transaction_id`, insertion
ordered). -/
structure BotState where
  rows : List TxRow
  monitored_ads : List (String × Nat)
deriving Repr, DecidableEq

/-- The receipt timeout, minutes: `timedelta(minutes=10)` in
`_check_for_receipt`. -/
def receipt_timeout_minutes : ℚ := 10

/-- `P2PChatBot._move_to_fool_pool` (chat_bot.py lines 387-410): set the
transaction's status to `fool_pool` with the reason, and delete the first
`monitored_ads` entry pointing at the transaction. -/
def move_to_fool_pool (s : BotState) (tid : Nat) (reason : String) (now : ℚ) :
    BotState :=
  { rows := updRows s.rows tid (fun r =>
      { r with status := "fool_pool", error_reason := some reason,
               updated_at := now })
    monitored_ads := s.monitored_ads.eraseP (fun p => p.2 == tid) }

/-- `P2PChatBot._check_for_receipt` (chat_bot.py lines 320-342): if a PDF is
present among the last five chat messages, return (the OCR module takes over);
otherwise, when more than ten minutes have passed since the transaction's
`updated_at`, move it to the fool pool. `now` is `datetime.now()` in minutes. -/
def check_for_receipt (s : BotState) (tid : Nat) (msgs : List ChatMsg)
    (now : ℚ) : BotState :=
  if has_pdf msgs then s
  else
    match getRow s.rows tid with
    | none => s
    | some r =>
      if receipt_timeout_minutes < now - r.updated_at then
        move_to_fool_pool s tid "Receipt timeout (10 minutes)" now
      else s

end ChatBot

namespace ReceiptProcessor

/-- Parsed receipt fields produced by `ReceiptProcessor.parse_receipt_text`
(each is `None` when the corresponding pattern did not match). -/
structure ParsedData where
  status : Option String
  amount : Option ℚ
  phone : Option String
  card_last4 : Option String
  bank : Option String
deriving Repr, DecidableEq

/-- `needle` occurs at the start of `hay`. -/
def chars_start : List Char → List Char → Bool
  | [], _ => true
  | _ :: _, [] => false
  | a :: as, b :: bs => a == b && chars_start as bs

/-- `needle` occurs somewhere inside `hay` (Python `needle in hay` on str). -/
def chars_contain (needle : List Char) : List Char → Bool
  | [] => needle.isEmpty
  | c :: rest => chars_start needle (c :: rest) || chars_contain needle rest

/-- Python substring test `needle in hay`. -/
def str_contains (hay needle : String) : Bool :=
  chars_contain needle.toList hay.toList

/-- `re.sub(r'[\s\-\(\)]', '', wallet)`: drop whitespace, dashes and
parentheses. -/
def clean_wallet (w : String) : String :=
  String.mk (w.toList.filter (fun c =>
    !(c == ' ' || c == '\t' || c == '\n' || c == '\r' || c == '-' ||
      c == '(' || c == ')')))

/-- `ReceiptProcessor.normalize_phone`: digits only, last ten. -/
def normalize_phone (phone : String) : String :=
  let d := phone.toList.filter (fun c => c.isDigit)
  String.mk (d.drop (d.length - 10))

/-- The secondary-contact test in the matching loop of
`match_receipt_to_transaction`: the extracted phone is a substring of the
cleaned wallet, or the extracted card last-4 is a substring of the raw
wallet (Python truthiness guards both fields). -/
def contact_hit (phone card_last4 : Option String) (t : TxRow) : Bool :=
  (pyTruthyStr phone && str_contains (clean_wallet t.wallet) (phone.getD "")) ||
  (pyTruthyStr card_last4 && str_contains t.wallet (card_last4.getD ""))

/-- The SQL candidate restriction of `match_receipt_to_transaction`:
`status IN ('waiting_receipt', 'waiting_payment') AND amount_rub = %s`. -/
def candidate_rows (rows : List TxRow) (amount : ℚ) : List TxRow :=
  rows.filter (fun t =>
    (t.status == "waiting_receipt" || t.status == "waiting_payment") &&
    t.amount_rub == amount)

/-- `ReceiptProcessor.match_receipt_to_transaction` (receipt_processor.py
lines 188-255), restricted to the matching decision: the id of the first
candidate row passing the secondary-contact test, `none` otherwise. The
receipt amount defaults to 0 when extraction found none
(`parsed_data.get('amount', 0)`). -/
def match_receipt_to_transaction (rows : List TxRow) (parsed : ParsedData) :
    Option Nat :=
  ((candidate_rows rows (parsed.amount.getD 0)).find?
    (contact_hit parsed.phone parsed.card_last4)).map (fun t => t.id)

/-- Last four digits of a contact string (used only by the spec-side
matching predicate below). -/
def last4_digits (s : String) : String :=
  let d := s.toList.filter (fun c => c.isDigit)
  String.mk (d.drop (d.length - 4))

/-- Modelled from the spec: the receipt-matching relation as §4.4 and the
claim state it — some open transaction (`waiting_payment`/`validating`) has
an amount within 1% tolerance of the receipt amount, its recorded contact
matches by last-4-card equality or normalized-phone equality, and its bank
label matches the expected issuer. This definition follows the spec's words,
to be compared against `match_receipt_to_transaction` above. -/
def spec_receipt_match (rows : List TxRow) (amount : ℚ)
    (phone card_last4 : Option String) (expected_bank : String) : Bool :=
  rows.any (fun t =>
    (t.status == "waiting_payment" || t.status == "validating") &&
    decide (|t.amount_rub - amount| ≤ t.amount_rub / 100) &&
    ((card_last4.isSome && last4_digits t.wallet == card_last4.getD "") ||
     (phone.isSome && normalize_phone t.wallet == normalize_phone (phone.getD ""))) &&
    t.bank_label == expected_bank)

end ReceiptProcessor

/-- Python `\s` whitespace (the characters occurring in this data). -/
def is_space_char (c : Char) : Bool :=
  c == ' ' || c == '\t' || c == '\n' || c == '\r' || c == '\x0b' || c == '\x0c'

/-- Cyrillic letter (А-Я а-я Ё ё), the non-ASCII alphabet of the chat
protocol; Python `\w` matches these. -/
def is_cyrillic_letter (c : Char) : Bool :=
  (0x410 ≤ c.toNat && c.toNat ≤ 0x44F) || c.toNat == 0x401 || c.toNat == 0x451

/-- Python `str.lower()` on the alphabets occurring in this program:
ASCII A-Z and Cyrillic А-Я/Ё. -/
def py_lower_char (c : Char) : Char :=
  if c.isUpper then c.toLower
  else if 0x410 ≤ c.toNat && c.toNat ≤ 0x42F then Char.ofNat (c.toNat + 0x20)
  else if c.toNat == 0x401 then Char.ofNat 0x451
  else c

/-- Python `\w`: alphanumerics and underscore (ASCII plus the Cyrillic
letters used by the protocol). -/
def is_word_char (c : Char) : Bool :=
  c.isAlphanum || c == '_' || is_cyrillic_letter c

namespace ChatFlow

/-- `ChatState` (chat_flow.py lines 16-24). -/
inductive ChatState where
  | initial
  | waiting_bank_confirmation
  | waiting_pdf_confirmation
  | waiting_sbp_confirmation
  | payment_details_sent
  | rejected
  | completed
deriving Repr, DecidableEq

/-- `ChatSession` (chat_flow.py lines 27-49): protocol state, append-only
message history (sender, content), rejection reason and the payment-method
stamp. Timestamps are omitted. -/
structure ChatSession where
  state : ChatState
  messages : List (String × String)
  rejection_reason : Option String
  payment_details_sent : Bool
  payment_method : Option String
deriving Repr, DecidableEq

/-- The dict-shaped transaction record as `ChatFlowManager` reads and writes
it (`transaction["buyer_status"]`, `transaction["payment_details_sent"]`,
`transaction.get("phone")`, ...). Timestamp fields are omitted. -/
structure VTx where
  buyer_status : Option String
  payment_details_sent : Bool
  payment_method : Option String
  phone : String
  amount : String
  email : String
deriving Repr, DecidableEq

/-- `ChatSession.add_message`: append to the ordered history. -/
def add_message (s : ChatSession) (sender content : String) : ChatSession :=
  { s with messages := s.messages ++ [(sender, content)] }

/-- `MESSAGES["greeting"]`. -/
def msg_greeting : String :=
  "Здравствуйте!\nОплата будет с Т банка? \n( просто напишите да/нет)"

/-- `MESSAGES["pdf_check"]`. -/
def msg_pdf_check : String :=
  "Чек в формате пдф с официальной почты Т банка сможете отправить ? \n( просто напишите да/нет)"

/-- `MESSAGES["sbp_warning"]`. -/
def msg_sbp_warning : String :=
  "При СБП, если оплата будет на неверный банк, деньги потеряны.\n( просто напишите подтверждаю/ не подтверждаю)"

/-- `MESSAGES["rejection"]`. -/
def msg_rejection : String :=
  "Извините, мы не можем продолжить сделку."

/-- The re-ask sent on an unrecognized answer in the bank and PDF
confirmation states. -/
def msg_clarify_yes_no : String :=
  "Пожалуйста, ответьте \x27да\x27 или \x27нет\x27"

/-- The re-ask sent on an unrecognized answer in the SBP confirmation
state. -/
def msg_clarify_confirm : String :=
  "Пожалуйста, ответьте \x27подтверждаю\x27 или \x27не подтверждаю\x27"

/-- `MESSAGES["payment_template"]` instantiated as in
`_get_payment_details`. -/
def payment_template (payment_method bank phone amount email : String) :
    String :=
  "Спасибо за подтверждение!\n\nДетали оплаты:\n💳 Способ оплаты: " ++
  payment_method ++ "\n🏦 Банк получателя: " ++ bank ++
  "\n📱 Номер телефона: " ++ phone ++ "\n💰 Сумма: " ++ amount ++
  " RUB\n\n📋 ВАЖНО:\n1. Переводите ТОЛЬКО с Т-Банка\n2. После оплаты отправьте PDF чек на email: " ++
  email ++
  "\n3. Чек должен быть отправлен с официальной почты Т-Банка\n\n⚠️ При отправке на неверный банк деньги будут потеряны!"

/-- `ChatFlowManager._normalize_response`: strip, lowercase, remove
punctuation (keep word characters and whitespace). -/
def normalize_response (message : String) : String :=
  let stripped :=
    ((message.toList.dropWhile is_space_char).reverse.dropWhile
      is_space_char).reverse
  let lowered := stripped.map py_lower_char
  String.mk (lowered.filter (fun c => is_word_char c || is_space_char c))

/-- Result of one `process_buyer_response` step: the bot's reply (if any),
the updated session and transaction, and the shared payment-method
alternator counter. -/
structure FlowResult where
  response : Option String
  session : ChatSession
  tx : VTx
  alternator : Nat
deriving Repr, DecidableEq

/-- `ChatFlowManager._mark_transaction_fool` (lines 331-339): stamp the
buyer's low-trust status onto the transaction. -/
def mark_transaction_fool (tx : VTx) : VTx :=
  { tx with buyer_status := some "fool" }

/-- Result of `_get_payment_details`: the formatted details message, the
session with its payment method stamped, and the incremented alternator. -/
structure PaymentDetailsResult where
  details : String
  session : ChatSession
  alternator : Nat
deriving Repr, DecidableEq

/-- `ChatFlowManager._get_payment_details` (lines 301-329): choose the
payment method by the parity of the shared `payment_alternator`, increment
it, and format the payment template. -/
def get_payment_details (sess : ChatSession) (tx : VTx) (alternator : Nat) :
    PaymentDetailsResult :=
  let pm := if alternator % 2 == 0 then "SBP" else "Tinkoff"
  let bank := if alternator % 2 == 0 then "Альфа-Банк" else "Тинькофф"
  { details := payment_template pm bank tx.phone tx.amount tx.email
    session := { sess with payment_method := some pm }
    alternator := alternator + 1 }

/-- `ChatFlowManager._process_bank_confirmation` (lines 198-225), acting on
the session and the owning transaction. -/
def process_bank_confirmation (sess : ChatSession) (tx : VTx)
    (alternator : Nat) (message : String) : FlowResult :=
  let n := normalize_response message
  if ["да", "yes", "д"].contains n then
    { response := some msg_pdf_check
      session := { add_message sess "bot" msg_pdf_check with
                     state := .waiting_pdf_confirmation }
      tx := tx, alternator := alternator }
  else if ["нет", "no", "н"].contains n then
    { response := some msg_rejection
      session := { add_message sess "bot" msg_rejection with
                     state := .rejected,
                     rejection_reason := some "Not using T-Bank" }
      tx := mark_transaction_fool tx, alternator := alternator }
  else
    { response := some msg_clarify_yes_no
      session := add_message sess "bot" msg_clarify_yes_no
      tx := tx, alternator := alternator }

/-- `ChatFlowManager._process_pdf_confirmation` (lines 227-254). -/
def process_pdf_confirmation (sess : ChatSession) (tx : VTx)
    (alternator : Nat) (message : String) : FlowResult :=
  let n := normalize_response message
  if ["да", "yes", "д"].contains n then
    { response := some msg_sbp_warning
      session := { add_message sess "bot" msg_sbp_warning with
                     state := .waiting_sbp_confirmation }
      tx := tx, alternator := alternator }
  else if ["нет", "no", "н"].contains n then
    { response := some msg_rejection
      session := { add_message sess "bot" msg_rejection with
                     state := .rejected,
                     rejection_reason := some "Cannot send PDF receipt" }
      tx := mark_transaction_fool tx, alternator := alternator }
  else
    { response := some msg_clarify_yes_no
      session := add_message sess "bot" msg_clarify_yes_no
      tx := tx, alternator := alternator }

/-- `ChatFlowManager._process_sbp_confirmation` (lines 256-289): on a
confirmation, send the payment details, stamp them onto the session and the
transaction (`_update_transaction_payment_sent`); on a denial, reject and
tag the buyer. -/
def process_sbp_confirmation (sess : ChatSession) (tx : VTx)
    (alternator : Nat) (message : String) : FlowResult :=
  let n := normalize_response message
  if ["подтверждаю", "confirm", "п"].contains n then
    let pd := get_payment_details sess tx alternator
    { response := some pd.details
      session := { add_message pd.session "bot" pd.details with
                     state := .payment_details_sent,
                     payment_details_sent := true }
      tx := { tx with payment_details_sent := true,
                      payment_method := pd.session.payment_method }
      alternator := pd.alternator }
  else if ["не подтверждаю", "не", "нет", "cancel"].contains n then
    { response := some msg_rejection
      session := { add_message sess "bot" msg_rejection with
                     state := .rejected,
                     rejection_reason := some "Did not confirm SBP warning" }
      tx := mark_transaction_fool tx, alternator := alternator }
  else
    { response := some msg_clarify_confirm
      session := add_message sess "bot" msg_clarify_confirm
      tx := tx, alternator := alternator }

/-- `ChatFlowManager.process_buyer_response` (lines 166-196): append the
buyer's message, then dispatch on the session state; in
`PAYMENT_DETAILS_SENT` and any terminal state nothing is sent. -/
def process_buyer_response (sess : ChatSession) (tx : VTx) (alternator : Nat)
    (message : String) : FlowResult :=
  let sess := add_message sess "buyer" message
  match sess.state with
  | .waiting_bank_confirmation =>
    process_bank_confirmation sess tx alternator message
  | .waiting_pdf_confirmation =>
    process_pdf_confirmation sess tx alternator message
  | .waiting_sbp_confirmation =>
    process_sbp_confirmation sess tx alternator message
  | _ => { response := none, session := sess, tx := tx, alternator := alternator }

/-- Feed a list of buyer messages through `process_buyer_response` one by
one. -/
def run_messages (sess : ChatSession) (tx : VTx) (alternator : Nat) :
    List String → ChatSession × VTx × Nat
  | [] => (sess, tx, alternator)
  | m :: ms =>
    let r := process_buyer_response sess tx alternator m
    run_messages r.session r.tx r.alternator ms

/-- The three confirmation states of the negotiation state machine. -/
def confirmation_states : List ChatState :=
  [.waiting_bank_confirmation, .waiting_pdf_confirmation,
   .waiting_sbp_confirmation]

/-- The buyer's answer is classified as negative / deny in the given
confirmation state (the exact branch conditions of the three `_process_*`
handlers). -/
def is_negative (st : ChatState) (message : String) : Bool :=
  match st with
  | .waiting_bank_confirmation =>
    ["нет", "no", "н"].contains (normalize_response message)
  | .waiting_pdf_confirmation =>
    ["нет", "no", "н"].contains (normalize_response message)
  | .waiting_sbp_confirmation =>
    ["не подтверждаю", "не", "нет", "cancel"].contains
      (normalize_response message)
  | _ => false

/-- The buyer's answer is classified as affirmative / confirm in the given
confirmation state. -/
def is_affirmative (st : ChatState) (message : String) : Bool :=
  match st with
  | .waiting_bank_confirmation =>
    ["да", "yes", "д"].contains (normalize_response message)
  | .waiting_pdf_confirmation =>
    ["да", "yes", "д"].contains (normalize_response message)
  | .waiting_sbp_confirmation =>
    ["подтверждаю", "confirm", "п"].contains (normalize_response message)
  | _ => false

/-- The buyer's answer falls into neither keyword set: the handler's final
`else` branch. -/
def is_unrecognized (st : ChatState) (message : String) : Bool :=
  !(is_affirmative st message) && !(is_negative st message)

/-- The re-ask each confirmation state sends on an unrecognized answer. -/
def clarification_message (st : ChatState) : Option String :=
  match st with
  | .waiting_bank_confirmation => some msg_clarify_yes_no
  | .waiting_pdf_confirmation => some msg_clarify_yes_no
  | .waiting_sbp_confirmation => some msg_clarify_confirm
  | _ => none

/-- The question whose answer the given confirmation state is awaiting (the
message that moved the session into that state: `process_new_buyer` for the
bank question, the affirmative branches for the later ones). -/
def pending_question (st : ChatState) : Option String :=
  match st with
  | .waiting_bank_confirmation => some msg_greeting
  | .waiting_pdf_confirmation => some msg_pdf_check
  | .waiting_sbp_confirmation => some msg_sbp_warning
  | _ => none

end ChatFlow

namespace TransactionManager

/-- `TransactionStatus` (transaction_manager.py lines 17-27). -/
inductive TransactionStatus where
  | pending
  | waiting_payment
  | payment_received
  | validating
  | approved
  | rejected
  | completed
  | cancelled
deriving Repr, DecidableEq

/-- The fields of `Transaction` that `validate_receipt` and
`update_transaction_status` read or write (timestamps omitted). -/
structure Transaction where
  payment_phone : Option String
  payment_card : Option String
  amount : ℚ
  status : TransactionStatus
  receipt_validated : Bool
deriving Repr, DecidableEq

/-- `re.sub(r'[\s\-\+]', '', phone)`: the normalization inside
`_compare_phones`. -/
def phone_norm_chars (s : String) : List Char :=
  s.toList.filter (fun c => !(is_space_char c || c == '-' || c == '+'))

/-- The two sequential leading-digit drops of `_compare_phones`: strip a
leading `7`, then a leading `8`, in that order. -/
def drop_lead_78 (s : List Char) : List Char :=
  let s1 := if s.head? == some '7' then s.drop 1 else s
  if s1.head? == some '8' then s1.drop 1 else s1

/-- `TransactionManager._compare_phones` (lines 406-425). -/
def compare_phones (expected : String) (found : Option String) : Bool :=
  match found with
  | none => false
  | some f =>
    if f == "" then false
    else
      drop_lead_78 (phone_norm_chars expected) ==
        drop_lead_78 (phone_norm_chars f)

/-- `re.sub(r'\D', '', s)[-4:]`: last four digits. -/
def card_last4 (s : String) : List Char :=
  let d := s.toList.filter (fun c => c.isDigit)
  d.drop (d.length - 4)

/-- `TransactionManager._compare_cards` (lines 427-436). -/
def compare_cards (expected : String) (found : Option String) : Bool :=
  match found with
  | none => false
  | some f =>
    if f == "" then false
    else card_last4 expected == card_last4 f

/-- `TransactionManager._compare_amounts` (lines 438-445): false when no
amount was found (Python truthiness also rejects a found amount of 0),
otherwise a 1% tolerance around the expected amount. -/
def compare_amounts (expected : ℚ) (found : Option ℚ) : Bool :=
  match found with
  | none => false
  | some f =>
    if f == 0 then false
    else decide (|expected - f| ≤ expected * (1 / 100))

/-- The `validation_result` dictionary of `validate_receipt` (`checks`
carries per-field outcomes; a field's entry is `none` when the check was
skipped). -/
structure ValidationResult where
  valid : Bool
  check_phone : Option Bool
  check_card : Option Bool
  check_amount : Option Bool
  errors : List String
deriving Repr, DecidableEq

/-- `TransactionManager.validate_receipt` (lines 271-339), with the three
OCR field extractions (`_extract_phone`, `_extract_card`, `_extract_amount`
applied to the OCR text) passed in as arguments — the rest of the function
depends on the text only through them, so quantifying over them covers every
OCR text. Each per-field check runs only when the transaction carries the
corresponding field (Python truthiness: a phone/card of `None` or `""`, or
an amount of 0, skips the check); the transaction is then marked validated
and moved to `approved` or `rejected`. -/
def validate_receipt (tx : Transaction) (ocr_phone ocr_card : Option String)
    (ocr_amount : Option ℚ) : ValidationResult × Transaction :=
  let check_phone : Option Bool :=
    if pyTruthyStr tx.payment_phone then
      some (compare_phones (tx.payment_phone.getD "") ocr_phone)
    else none
  let check_card : Option Bool :=
    if pyTruthyStr tx.payment_card then
      some (compare_cards (tx.payment_card.getD "") ocr_card)
    else none
  let check_amount : Option Bool :=
    if tx.amount == 0 then none
    else some (compare_amounts tx.amount ocr_amount)
  let valid := check_phone.getD true && check_card.getD true &&
    check_amount.getD true
  let errors :=
    (if check_phone == some false then ["Phone number mismatch"] else []) ++
    (if check_card == some false then ["Card number mismatch"] else []) ++
    (if check_amount == some false then ["Amount mismatch"] else [])
  ({ valid := valid, check_phone := check_phone, check_card := check_card
     check_amount := check_amount, errors := errors },
   { tx with receipt_validated := true,
             status := if valid then .approved else .rejected })

/-- `TransactionManager.update_transaction_status` (lines 200-213): look the
transaction up in the in-memory dict; when present, overwrite its status
unconditionally and report success. -/
def update_transaction_status (txs : List (String × Transaction))
    (tid : String) (status : TransactionStatus) :
    Bool × List (String × Transaction) :=
  if txs.any (fun p => p.1 == tid) then
    (true, txs.map (fun p =>
      if p.1 == tid then (p.1, { p.2 with status := status }) else p))
  else (false, txs)

end TransactionManager

/-! Sample data used by counterexamples and witnesses. -/

/-- A Gate transaction as in spec Scenario A. -/
def sample_gate_tx : Monitoring.GateTx :=
  { id := "GATE-100", amount_rub := 5000, wallet := "+7 999 123-45-67"
    bank_label := "T-Bank", bank_code := "TCSBRUB" }

/-- A Gate transaction whose RUB amount extraction came back 0. -/
def zero_amount_gate_tx : Monitoring.GateTx :=
  { id := "GATE-0", amount_rub := 0, wallet := "+7 999 123-45-67"
    bank_label := "T-Bank", bank_code := "TCSBRUB" }

/-- The empty ingestion state. -/
def empty_mon_state : Monitoring.MonState :=
  { transactions := [], next_id := 1, queue := [] }

/-- A transaction row sitting in the fool pool. -/
def fool_pool_row : TxRow :=
  { id := 1, gate_transaction_id := "GATE-100", status := "fool_pool"
    gate_account_id := 1, amount_rub := 5000, wallet := "+7 999 123-45-67"
    bank_label := "T-Bank", bank_code := "TCSBRUB", error_reason := none
    updated_at := 0, bybit_account_id := none, bybit_ad_id := none }

/-- An open transaction row awaiting its payment, with a non-T-Bank
label. -/
def waiting_row : TxRow :=
  { id := 1, gate_transaction_id := "GATE-100", status := "waiting_payment"
    gate_account_id := 1, amount_rub := 5000, wallet := "+7 999 123-45-67"
    bank_label := "Sberbank", bank_code := "SBERRUB", error_reason := none
    updated_at := 0, bybit_account_id := none, bybit_ad_id := none }

/-- Receipt fields for an exact-amount, phone-matching receipt. -/
def sample_parsed : ReceiptProcessor.ParsedData :=
  { status := some "success", amount := some 5000
    phone := some "9991234567", card_last4 := none, bank := some "T-Bank" }

/-- A pending transaction row. -/
def pending_row : TxRow :=
  { id := 1, gate_transaction_id := "GATE-100", status := "pending"
    gate_account_id := 1, amount_rub := 5000, wallet := "+7 999 123-45-67"
    bank_label := "T-Bank", bank_code := "TCSBRUB", error_reason := none
    updated_at := 0, bybit_account_id := none, bybit_ad_id := none }

/-- A fresh chat session awaiting the bank question's answer (history as
`process_new_buyer` leaves it). -/
def bank_question_session : ChatFlow.ChatSession :=
  { state := .waiting_bank_confirmation
    messages := [("bot", ChatFlow.msg_greeting)]
    rejection_reason := none, payment_details_sent := false
    payment_method := none }

/-- A chat session awaiting the SBP warning's confirmation. -/
def sbp_question_session : ChatFlow.ChatSession :=
  { state := .waiting_sbp_confirmation
    messages := [], rejection_reason := none, payment_details_sent := false
    payment_method := none }

/-- A transaction record as the chat flow sees it. -/
def sample_vtx : ChatFlow.VTx :=
  { buyer_status := none, payment_details_sent := false
    payment_method := none, phone := "+7 999 123-45-67"
    amount := "5000", email := "receipts@example.com" }

/-! Helper lemmas. -/

/-- A mapped row: updating the table keeps the image of a member row. -/
theorem updRows_mem_image (rows : List TxRow) (tid : Nat) (f : TxRow → TxRow)
    (r0 : TxRow) (h : r0 ∈ rows) (hid : r0.id = tid) :
    f r0 ∈ updRows rows tid f := by
  unfold updRows
  have : f r0 = (fun r => if r.id == tid then f r else r) r0 := by
    simp [hid]
  rw [this]
  exact List.mem_map_of_mem _ h

/-- Looking a row up after an id-preserving table update. -/
theorem getRow_updRows (rows : List TxRow) (tid : Nat) (f : TxRow → TxRow)
    (hf : ∀ r, (f r).id = r.id) (r : TxRow) (h : getRow rows tid = some r) :
    getRow (updRows rows tid f) tid = some (f r) := by
  induction rows with
  | nil => simp [getRow] at h
  | cons a l ih =>
    by_cases ha : a.id = tid
    · have hr : r = a := by
        simp [getRow, List.find?_cons, ha] at h
        exact h.symm
      subst hr
      simp [getRow, updRows, List.find?_cons, ha, hf]
    · have h' : getRow l tid = some r := by
        simpa [getRow, List.find?_cons, ha] using h
      have := ih h'
      simpa [getRow, updRows, List.find?_cons, ha] using this

/-- If at most one list element satisfies `p`, nothing left after `eraseP p`
satisfies it. -/
theorem eraseP_countP_le_one {α : Type} (p : α → Bool) :
    ∀ l : List α, l.countP p ≤ 1 → ∀ x ∈ l.eraseP p, p x = false := by
  intro l
  induction l with
  | nil => intro _ x hx; simp at hx
  | cons a l ih =>
    intro hc x hx
    by_cases pa : p a = true
    · rw [List.eraseP_cons_of_pos pa] at hx
      rw [List.countP_cons_of_pos _ _ pa] at hc
      have hz : l.countP p = 0 := by omega
      have := List.countP_eq_zero.mp hz x hx
      simpa using this
    · have pa' : p a = false := by simpa using pa
      rw [List.eraseP_cons_of_neg (by simp [pa'])] at hx
      rw [List.countP_cons_of_neg _ _ (by simp [pa'])] at hc
      rcases List.mem_cons.mp hx with h | h
      · subst h; exact pa'
      · exact ih hc x h

namespace Monitoring

/-- No record with the external id means the id-count is zero, and
conversely. -/
theorem hasExternalId_false_iff (s : MonState) (eid : String) :
    hasExternalId s eid = false ↔ countExternalId s eid = 0 := by
  unfold hasExternalId countExternalId
  rw [List.any_eq_false, List.length_eq_zero, List.filter_eq_nil_iff]

/-- Re-observation of a known external id changes nothing. -/
theorem process_gate_transaction_noop (acc : Nat) (tx : GateTx) (s : MonState)
    (h : hasExternalId s tx.id = true) :
    process_gate_transaction acc tx s = s := by
  unfold process_gate_transaction
  rw [h]
  simp

/-- A first observation with positive amount appends exactly one matching
record. -/
theorem process_gate_transaction_fresh (acc : Nat) (tx : GateTx) (s : MonState)
    (hamt : 0 < tx.amount_rub) (h : hasExternalId s tx.id = false) :
    countExternalId (process_gate_transaction acc tx s) tx.id =
      countExternalId s tx.id + 1 ∧
    hasExternalId (process_gate_transaction acc tx s) tx.id = true := by
  unfold process_gate_transaction
  rw [if_neg (by exact not_le.mpr hamt), h]
  constructor
  · unfold countExternalId
    simp
  · unfold hasExternalId
    simp

/-- Observing a known external id repeatedly keeps the count fixed. -/
theorem observeN_stable (acc : Nat) (tx : GateTx) :
    ∀ (n : Nat) (s : MonState), hasExternalId s tx.id = true →
      observeN acc tx n s = s := by
  intro n
  induction n with
  | zero => intro s _; rfl
  | succ n ih =>
    intro s h
    unfold observeN
    rw [process_gate_transaction_noop acc tx s h]
    exact ih s h

end Monitoring

/-- C1: the claim as stated is false on an explicit input. A Gate transaction
whose extracted RUB amount is 0 (the `amount_rub <= 0` guard at the top of
`process_gate_transaction`) is skipped outright: observing it twice creates
zero Transaction records, not exactly one. -/
theorem C1_ingestion_counterexample :
    Monitoring.countExternalId
        (Monitoring.observeN 1 zero_amount_gate_tx 2 empty_mon_state)
        "GATE-0" = 0 ∧
    ¬ Monitoring.countExternalId
        (Monitoring.observeN 1 zero_amount_gate_tx 2 empty_mon_state)
        "GATE-0" = 1 := by
  decide

/-- C1 (amended): ingestion is idempotent for transactions with a positive
RUB amount — a newly observed external id with positive amount yields exactly
one Transaction record no matter how many times it is observed — and
re-observation of an external id that already has a record is a no-op,
leaving the store, id counter and processing queue unchanged (a transaction
with non-positive amount is skipped and never creates a record). -/
theorem C1_ingestion_amended :
    (∀ (acc : Nat) (tx : Monitoring.GateTx) (s : Monitoring.MonState) (n : Nat),
       0 < tx.amount_rub → Monitoring.hasExternalId s tx.id = false →
       Monitoring.countExternalId (Monitoring.observeN acc tx (n + 1) s) tx.id
         = 1) ∧
    (∀ (acc : Nat) (tx : Monitoring.GateTx) (s : Monitoring.MonState),
       Monitoring.hasExternalId s tx.id = true →
       Monitoring.process_gate_transaction acc tx s = s) := by
  constructor
  · intro acc tx s n hamt h
    obtain ⟨hcount, hhas⟩ :=
      Monitoring.process_gate_transaction_fresh acc tx s hamt h
    have hzero : Monitoring.countExternalId s tx.id = 0 :=
      (Monitoring.hasExternalId_false_iff s tx.id).mp h
    unfold Monitoring.observeN
    rw [Monitoring.observeN_stable acc tx n _ hhas, hcount, hzero]
  · exact fun acc tx s h => Monitoring.process_gate_transaction_noop acc tx s h

/-- C1 witness: the amended theorem at Scenario A's transaction (5000 RUB,
id `GATE-100`) observed three times from the empty store, and at a store
that already holds the record. -/
theorem C1_ingestion_amended_witness :
    Monitoring.countExternalId
        (Monitoring.observeN 1 sample_gate_tx 3 empty_mon_state) "GATE-100"
      = 1 ∧
    Monitoring.process_gate_transaction 1 sample_gate_tx
        { transactions := [pending_row], next_id := 2, queue := [1] } =
      { transactions := [pending_row], next_id := 2, queue := [1] } :=
  ⟨C1_ingestion_amended.1 1 sample_gate_tx empty_mon_state 2 (by decide)
     (by decide),
   C1_ingestion_amended.2 1 sample_gate_tx _ (by decide)⟩

/-- C2: the claim as stated is false on an explicit input: `fool_pool` is a
terminal status, yet a single `update_transaction_status` call moves the
transaction from `fool_pool` back to `pending`. -/
theorem C2_terminal_counterexample :
    "fool_pool" ∈ terminal_statuses ∧
    (getRow
        (TransactionProcessor.update_transaction_status [fool_pool_row] 1
          "pending" none 0) 1).map TxRow.status = some "pending" := by
  decide

/-- C2 (amended): neither status-update operation guards terminal states:
each one overwrites the stored status with its argument unconditionally, so
a transaction in any terminal state (`rejected`, `fool_pool`, `released`,
`cancelled`, `error`) is transitioned to whatever status the next update
requests. Terminal states are absorbing only to the extent that callers
never issue such updates. -/
theorem C2_terminal_amended :
    (∀ (rows : List TxRow) (tid : Nat) (st : String) (er : Option String)
       (now : ℚ) (r0 : TxRow), r0 ∈ rows → r0.id = tid →
       r0.status ∈ terminal_statuses →
       ∃ r ∈ TransactionProcessor.update_transaction_status rows tid st er now,
         r.id = tid ∧ r.status = st) ∧
    (∀ (txs : List (String × TransactionManager.Transaction)) (tid : String)
       (st : TransactionManager.TransactionStatus)
       (p0 : String × TransactionManager.Transaction), p0 ∈ txs →
       p0.1 = tid →
       (p0.2.status = .rejected ∨ p0.2.status = .cancelled) →
       ∃ p ∈ (TransactionManager.update_transaction_status txs tid st).2,
         p.1 = tid ∧ p.2.status = st) := by
  constructor
  · intro rows tid st er now r0 hmem hid _
    unfold TransactionProcessor.update_transaction_status
    by_cases her : pyTruthyStr er = true
    · rw [if_pos her]
      exact ⟨_, updRows_mem_image rows tid _ r0 hmem hid, by simp [hid], rfl⟩
    · rw [if_neg her]
      exact ⟨_, updRows_mem_image rows tid _ r0 hmem hid, by simp [hid], rfl⟩
  · intro txs tid st p0 hmem hid _
    unfold TransactionManager.update_transaction_status
    have hany : txs.any (fun p => p.1 == tid) = true :=
      List.any_eq_true.mpr ⟨p0, hmem, by simp [hid]⟩
    rw [if_pos hany]
    refine ⟨(p0.1, { p0.2 with status := st }), ?_, hid, rfl⟩
    have : (p0.1, { p0.2 with status := st }) =
        (fun p => if p.1 == tid then (p.1, { p.2 with status := st }) else p)
          p0 := by
      simp [hid]
    rw [this]
    exact List.mem_map_of_mem _ hmem

/-- C2 witness: the amended theorem at a one-row table holding a `fool_pool`
transaction being updated to `waiting_payment`, and at a one-entry manager
dict holding a `rejected` transaction being updated to `approved`. -/
theorem C2_terminal_amended_witness :
    (∃ r ∈ TransactionProcessor.update_transaction_status [fool_pool_row] 1
        "waiting_payment" none 0, r.id = 1 ∧ r.status = "waiting_payment") ∧
    (∃ p ∈ (TransactionManager.update_transaction_status
        [("tx-1", { payment_phone := none, payment_card := none, amount := 0,
                    status := .rejected, receipt_validated := false })]
        "tx-1" .approved).2, p.1 = "tx-1" ∧ p.2.status = .approved) :=
  ⟨C2_terminal_amended.1 [fool_pool_row] 1 "waiting_payment" none 0
     fool_pool_row (by decide) rfl (by decide),
   C2_terminal_amended.2 _ "tx-1" .approved
     ("tx-1", { payment_phone := none, payment_card := none, amount := 0,
                status := .rejected, receipt_validated := false })
     (by decide) rfl (Or.inl rfl)⟩

/-- C3: the claim's iff is false on an explicit input. The code links the
receipt (amount 5000, phone fragment `9991234567`) to transaction 1 even
though that transaction's bank label is `Sberbank`, not the expected
issuer `T-Bank` — the spec-side relation (`spec_receipt_match`, which
requires the bank label to match) rejects the pair, so matching is not the
stated iff: the matcher consults no bank label at all. -/
theorem C3_matching_counterexample :
    ReceiptProcessor.match_receipt_to_transaction [waiting_row] sample_parsed
      = some 1 ∧
    ReceiptProcessor.spec_receipt_match [waiting_row]
      (sample_parsed.amount.getD 0) sample_parsed.phone
      sample_parsed.card_last4 "T-Bank" = false := by
  constructor
  · decide
  · have hb : (waiting_row.bank_label == "T-Bank") = false := by decide
    simp [ReceiptProcessor.spec_receipt_match, hb]

/-- C3 (amended): the matcher links a receipt to a transaction iff some
transaction with status `waiting_receipt` or `waiting_payment` has an amount
exactly equal to the receipt's extracted amount (0 when extraction found
none) and passes the secondary-contact test — the extracted phone is a
substring of the wallet cleaned of spaces/dashes/parentheses, or the
extracted card last-4 is a substring of the raw wallet. The bank label is
not consulted, `validating` transactions are not candidates, and no amount
tolerance is applied (a `T-Bank` requirement is enforced earlier by
`validate_receipt` on the receipt alone). -/
theorem C3_matching_amended (rows : List TxRow)
    (parsed : ReceiptProcessor.ParsedData) :
    (ReceiptProcessor.match_receipt_to_transaction rows parsed).isSome = true
      ↔ ∃ t ∈ rows,
          (t.status = "waiting_receipt" ∨ t.status = "waiting_payment") ∧
          t.amount_rub = parsed.amount.getD 0 ∧
          ReceiptProcessor.contact_hit parsed.phone parsed.card_last4 t
            = true := by
  unfold ReceiptProcessor.match_receipt_to_transaction
  have hmap : ∀ (o : Option TxRow),
      (Option.map (fun t => t.id) o).isSome = o.isSome := by
    intro o; cases o <;> rfl
  rw [hmap, List.find?_isSome]
  constructor
  · rintro ⟨t, htmem, hhit⟩
    have := List.mem_filter.mp htmem
    refine ⟨t, this.1, ?_, ?_, hhit⟩
    · have h2 := this.2
      simp only [Bool.and_eq_true, Bool.or_eq_true, beq_iff_eq] at h2
      exact h2.1
    · have h2 := this.2
      simp only [Bool.and_eq_true, Bool.or_eq_true, beq_iff_eq] at h2
      exact h2.2
  · rintro ⟨t, htmem, hst, hamt, hhit⟩
    refine ⟨t, List.mem_filter.mpr ⟨htmem, ?_⟩, hhit⟩
    simp only [Bool.and_eq_true, Bool.or_eq_true, beq_iff_eq]
    exact ⟨hst, hamt⟩

/-- C3 witness: the amended characterization instantiated on the sample
waiting transaction and the phone-matching receipt. -/
theorem C3_matching_amended_witness :
    (ReceiptProcessor.match_receipt_to_transaction [waiting_row]
      sample_parsed).isSome = true :=
  (C3_matching_amended [waiting_row] sample_parsed).mpr
    ⟨waiting_row, by decide, Or.inr rfl, by decide, by decide⟩

/-- A monitored transaction row awaiting its receipt (`updated_at` is the
moment the requisites were sent, in minutes). -/
def monitored_row : TxRow :=
  { id := 1, gate_transaction_id := "GATE-100", status := "waiting_payment"
    gate_account_id := 1, amount_rub := 5000, wallet := "+7 999 123-45-67"
    bank_label := "T-Bank", bank_code := "TCSBRUB", error_reason := none
    updated_at := 0, bybit_account_id := none, bybit_ad_id := none }

/-- The chat bot's state while ad `AD-1` is monitored for transaction 1. -/
def sample_bot_state : ChatBot.BotState :=
  { rows := [monitored_row], monitored_ads := [("AD-1", 1)] }

/-- C4 (confirmed): the receipt-timeout check. When no PDF receipt is among
the last five chat messages and strictly more than the configured ten
minutes have elapsed since the transaction's `updated_at`, the check moves
the transaction to `fool_pool` and drops it from the monitored-ads map
(assuming, as `monitor_ad` maintains, at most one ad per transaction); for
any elapsed time strictly below the timeout the check changes nothing. -/
theorem C4_receipt_timeout :
    (∀ (s : ChatBot.BotState) (tid : Nat) (msgs : List ChatBot.ChatMsg)
       (now : ℚ) (r : TxRow),
       ChatBot.has_pdf msgs = false →
       getRow s.rows tid = some r →
       ChatBot.receipt_timeout_minutes < now - r.updated_at →
       s.monitored_ads.countP (fun p => p.2 == tid) ≤ 1 →
       (getRow (ChatBot.check_for_receipt s tid msgs now).rows tid).map
           TxRow.status = some "fool_pool" ∧
       ∀ p ∈ (ChatBot.check_for_receipt s tid msgs now).monitored_ads,
         p.2 ≠ tid) ∧
    (∀ (s : ChatBot.BotState) (tid : Nat) (msgs : List ChatBot.ChatMsg)
       (now : ℚ) (r : TxRow),
       getRow s.rows tid = some r →
       now - r.updated_at < ChatBot.receipt_timeout_minutes →
       ChatBot.check_for_receipt s tid msgs now = s) := by
  constructor
  · intro s tid msgs now r hpdf hrow htime hcount
    have hstep : ChatBot.check_for_receipt s tid msgs now =
        ChatBot.move_to_fool_pool s tid "Receipt timeout (10 minutes)" now := by
      unfold ChatBot.check_for_receipt
      rw [hpdf, hrow]
      simp [htime]
    rw [hstep]
    unfold ChatBot.move_to_fool_pool
    constructor
    · rw [getRow_updRows s.rows tid
        (fun r => { r with status := "fool_pool"
                           error_reason := some "Receipt timeout (10 minutes)"
                           updated_at := now })
        (fun _ => rfl) r hrow]
      rfl
    · intro p hp
      have := eraseP_countP_le_one (fun p => p.2 == tid) s.monitored_ads
        hcount p hp
      simpa using this
  · intro s tid msgs now r hrow htime
    unfold ChatBot.check_for_receipt
    by_cases hpdf : ChatBot.has_pdf msgs = true
    · rw [hpdf]; simp
    · have hpdf' : ChatBot.has_pdf msgs = false := by simpa using hpdf
      rw [hpdf', hrow]
      simp [lt_asymm htime]

/-- C4 witness: the timeout fires at eleven minutes (no PDF in an empty
chat) and leaves the state untouched at five minutes. -/
theorem C4_receipt_timeout_witness :
    ((getRow (ChatBot.check_for_receipt sample_bot_state 1 [] 11).rows 1).map
        TxRow.status = some "fool_pool" ∧
     ∀ p ∈ (ChatBot.check_for_receipt sample_bot_state 1 [] 11).monitored_ads,
       p.2 ≠ 1) ∧
    ChatBot.check_for_receipt sample_bot_state 1 [] 5 = sample_bot_state :=
  ⟨C4_receipt_timeout.1 sample_bot_state 1 [] 11 monitored_row rfl (by decide)
     (by norm_num [ChatBot.receipt_timeout_minutes, monitored_row])
     (by decide),
   C4_receipt_timeout.2 sample_bot_state 1 [] 5 monitored_row (by decide)
     (by norm_num [ChatBot.receipt_timeout_minutes, monitored_row])⟩

/-- C5: the claim is false on an explicit input. Processing the pending
transaction 1 with no Bybit account registered marks it `error` (reason
`No available Bybit accounts`) — it is not left `pending` for retry. -/
theorem C5_backpressure_counterexample :
    (getRow (TransactionProcessor.process_transaction [pending_row] [] 1 none
        0) 1).map TxRow.status = some "error" ∧
    ¬ (getRow (TransactionProcessor.process_transaction [pending_row] [] 1
        none 0) 1).map TxRow.status = some "pending" := by
  decide

/-- C5 (amended): when no Bybit account is available for a transaction,
`process_transaction` marks the transaction `error` with reason
`No available Bybit accounts` (after first stamping it `processing`); it is
not left `pending` for a later poll cycle. -/
theorem C5_backpressure_amended
    (rows : List TxRow) (accounts : List TransactionProcessor.BybitAccount)
    (tid : Nat) (ad_result : Option String) (now : ℚ) (r : TxRow)
    (hrow : getRow rows tid = some r)
    (hacc : TransactionProcessor.find_available_bybit_account accounts
      = none) :
    (getRow (TransactionProcessor.process_transaction rows accounts tid
        ad_result now) tid).map TxRow.status = some "error" ∧
    (getRow (TransactionProcessor.process_transaction rows accounts tid
        ad_result now) tid).map TxRow.error_reason =
      some (some "No available Bybit accounts") := by
  have h1 : getRow
      (TransactionProcessor.update_transaction_status rows tid "processing"
        none now) tid =
      some ({ r with status := "processing", updated_at := now }) := by
    unfold TransactionProcessor.update_transaction_status
    rw [if_neg (by decide)]
    exact getRow_updRows rows tid
      (fun r => { r with status := "processing", updated_at := now })
      (fun _ => rfl) r hrow
  have h2 : getRow
      (TransactionProcessor.update_transaction_status
        (TransactionProcessor.update_transaction_status rows tid "processing"
          none now) tid "error" (some "No available Bybit accounts") now)
      tid =
      some ({ r with status := "error"
                     error_reason := some "No available Bybit accounts"
                     updated_at := now }) := by
    set rows1 := TransactionProcessor.update_transaction_status rows tid
      "processing" none now with hr1
    unfold TransactionProcessor.update_transaction_status
    rw [if_pos (by decide)]
    exact getRow_updRows rows1 tid
      (fun r => { r with status := "error"
                         error_reason := some "No available Bybit accounts"
                         updated_at := now })
      (fun _ => rfl) ({ r with status := "processing", updated_at := now })
      h1
  unfold TransactionProcessor.process_transaction
  rw [hrow, hacc]
  rw [h2]
  exact ⟨rfl, rfl⟩

/-- C5 witness: the amended theorem at a one-row table and a single
saturated Bybit account. -/
theorem C5_backpressure_amended_witness :
    (getRow (TransactionProcessor.process_transaction [pending_row]
        [{ id := 1, name := "A", is_active := true, active_ads := 2 }] 1 none
        0) 1).map TxRow.status = some "error" ∧
    (getRow (TransactionProcessor.process_transaction [pending_row]
        [{ id := 1, name := "A", is_active := true, active_ads := 2 }] 1 none
        0) 1).map TxRow.error_reason =
      some (some "No available Bybit accounts") :=
  C5_backpressure_amended [pending_row] _ 1 none 0 pending_row (by decide)
    (by decide)

/-- C6 (confirmed): account selection respects the ad-capacity limit of two:
`find_available_bybit_account` never returns an account whose active-ad
count is 2 or more (so the stated interest-based exception is never even
needed), and when every active account is at or above the limit it returns
`none`. -/
theorem C6_capacity :
    (∀ (accounts : List TransactionProcessor.BybitAccount)
       (a : TransactionProcessor.BybitAccount),
       TransactionProcessor.find_available_bybit_account accounts = some a →
       a.active_ads < 2) ∧
    (∀ accounts : List TransactionProcessor.BybitAccount,
       (∀ a ∈ accounts, a.is_active = true → 2 ≤ a.active_ads) →
       TransactionProcessor.find_available_bybit_account accounts = none) := by
  constructor
  · intro accounts a h
    have := List.find?_some h
    simp only [decide_eq_true_eq] at this
    omega
  · intro accounts h
    unfold TransactionProcessor.find_available_bybit_account
    rw [List.find?_eq_none]
    intro a ha
    have hmem := List.mem_filter.mp ha
    have h2 := h a hmem.1 (by simpa using hmem.2)
    simp only [decide_eq_true_eq, not_le]
    omega

/-- C6 witness: with one saturated and one free account the free one is
selected (and its ad count is below the limit); with only the saturated
account the search reports none available. -/
theorem C6_capacity_witness :
    ({ id := 2, name := "B", is_active := true, active_ads := 1 } :
      TransactionProcessor.BybitAccount).active_ads < 2 ∧
    TransactionProcessor.find_available_bybit_account
      [{ id := 1, name := "A", is_active := true, active_ads := 2 }] = none :=
  ⟨C6_capacity.1
     [{ id := 1, name := "A", is_active := true, active_ads := 2 },
      { id := 2, name := "B", is_active := true, active_ads := 1 }]
     { id := 2, name := "B", is_active := true, active_ads := 1 }
     (by decide),
   C6_capacity.2
     [{ id := 1, name := "A", is_active := true, active_ads := 2 }]
     (by decide)⟩

namespace ChatFlow

/-- A rejected session stays rejected through any further buyer messages:
the dispatcher only appends them to the history, leaving the state, the
details flag, the transaction and the alternator unchanged. -/
theorem run_messages_rejected :
    ∀ (msgs : List String) (sess : ChatSession) (tx : VTx) (alt : Nat),
      sess.state = .rejected →
      (run_messages sess tx alt msgs).1.state = .rejected ∧
      (run_messages sess tx alt msgs).1.payment_details_sent =
        sess.payment_details_sent ∧
      (run_messages sess tx alt msgs).2 = (tx, alt) := by
  intro msgs
  induction msgs with
  | nil => intro sess tx alt h; exact ⟨h, rfl, rfl⟩
  | cons m ms ih =>
    intro sess tx alt h
    have hpr : process_buyer_response sess tx alt m =
        { response := none, session := add_message sess "buyer" m, tx := tx
          alternator := alt } := by
      unfold process_buyer_response
      simp [add_message, h]
    unfold run_messages
    rw [hpr]
    have := ih (add_message sess "buyer" m) tx alt (by simp [add_message, h])
    simpa [add_message] using this

/-- One step on a negatively classified answer in a confirmation state:
the session is rejected and the transaction is tagged as a fool. -/
theorem negative_step (sess : ChatSession) (tx : VTx) (alt : Nat)
    (msg : String) (hmem : sess.state ∈ confirmation_states)
    (hneg : is_negative sess.state msg = true) :
    (process_buyer_response sess tx alt msg).session.state = .rejected ∧
    (process_buyer_response sess tx alt msg).session.payment_details_sent =
      sess.payment_details_sent ∧
    (process_buyer_response sess tx alt msg).tx = mark_transaction_fool tx ∧
    (process_buyer_response sess tx alt msg).alternator = alt := by
  have hcases : sess.state = .waiting_bank_confirmation ∨
      sess.state = .waiting_pdf_confirmation ∨
      sess.state = .waiting_sbp_confirmation := by
    simpa [confirmation_states] using hmem
  rcases hcases with hs | hs | hs
  · have hnoP : normalize_response msg = "нет" ∨
        normalize_response msg = "no" ∨ normalize_response msg = "н" := by
      rw [hs] at hneg; simpa [is_negative] using hneg
    have hyesP : ¬(normalize_response msg = "да" ∨
        normalize_response msg = "yes" ∨ normalize_response msg = "д") := by
      rcases hnoP with h | h | h <;> rw [h] <;> decide
    unfold process_buyer_response
    simp [add_message, hs, process_bank_confirmation, hyesP, hnoP]
  · have hnoP : normalize_response msg = "нет" ∨
        normalize_response msg = "no" ∨ normalize_response msg = "н" := by
      rw [hs] at hneg; simpa [is_negative] using hneg
    have hyesP : ¬(normalize_response msg = "да" ∨
        normalize_response msg = "yes" ∨ normalize_response msg = "д") := by
      rcases hnoP with h | h | h <;> rw [h] <;> decide
    unfold process_buyer_response
    simp [add_message, hs, process_pdf_confirmation, hyesP, hnoP]
  · have hnoP : normalize_response msg = "не подтверждаю" ∨
        normalize_response msg = "не" ∨ normalize_response msg = "нет" ∨
        normalize_response msg = "cancel" := by
      rw [hs] at hneg; simpa [is_negative] using hneg
    have hyesP : ¬(normalize_response msg = "подтверждаю" ∨
        normalize_response msg = "confirm" ∨
        normalize_response msg = "п") := by
      rcases hnoP with h | h | h | h <;> rw [h] <;> decide
    unfold process_buyer_response
    simp [add_message, hs, process_sbp_confirmation, hyesP, hnoP]

/-- One step on an unrecognized answer in a confirmation state: the fixed
clarification prompt is sent, and the state, transaction and alternator are
unchanged. -/
theorem unrecognized_step (sess : ChatSession) (tx : VTx) (alt : Nat)
    (msg : String) (hmem : sess.state ∈ confirmation_states)
    (h : is_unrecognized sess.state msg = true) :
    (process_buyer_response sess tx alt msg).response =
      clarification_message sess.state ∧
    (process_buyer_response sess tx alt msg).session.state = sess.state ∧
    (process_buyer_response sess tx alt msg).tx = tx ∧
    (process_buyer_response sess tx alt msg).alternator = alt := by
  have hcases : sess.state = .waiting_bank_confirmation ∨
      sess.state = .waiting_pdf_confirmation ∨
      sess.state = .waiting_sbp_confirmation := by
    simpa [confirmation_states] using hmem
  rcases hcases with hs | hs | hs
  · rw [hs] at h
    have hp : ¬(normalize_response msg = "да" ∨
          normalize_response msg = "yes" ∨ normalize_response msg = "д") ∧
        ¬(normalize_response msg = "нет" ∨
          normalize_response msg = "no" ∨ normalize_response msg = "н") := by
      simpa [is_unrecognized, is_affirmative, is_negative] using h
    unfold process_buyer_response
    simp [add_message, hs, process_bank_confirmation, hp.1, hp.2,
      clarification_message]
  · rw [hs] at h
    have hp : ¬(normalize_response msg = "да" ∨
          normalize_response msg = "yes" ∨ normalize_response msg = "д") ∧
        ¬(normalize_response msg = "нет" ∨
          normalize_response msg = "no" ∨ normalize_response msg = "н") := by
      simpa [is_unrecognized, is_affirmative, is_negative] using h
    unfold process_buyer_response
    simp [add_message, hs, process_pdf_confirmation, hp.1, hp.2,
      clarification_message]
  · rw [hs] at h
    have hp : ¬(normalize_response msg = "подтверждаю" ∨
          normalize_response msg = "confirm" ∨
          normalize_response msg = "п") ∧
        ¬(normalize_response msg = "не подтверждаю" ∨
          normalize_response msg = "не" ∨ normalize_response msg = "нет" ∨
          normalize_response msg = "cancel") := by
      simpa [is_unrecognized, is_affirmative, is_negative] using h
    unfold process_buyer_response
    simp [add_message, hs, process_sbp_confirmation, hp.1, hp.2,
      clarification_message]

/-- Any number of unrecognized answers leaves a confirmation state exactly
where it was (no retry bound, no default to rejection). -/
theorem run_messages_unrecognized :
    ∀ (msgs : List String) (sess : ChatSession) (tx : VTx) (alt : Nat),
      sess.state ∈ confirmation_states →
      (∀ m ∈ msgs, is_unrecognized sess.state m = true) →
      (run_messages sess tx alt msgs).1.state = sess.state := by
  intro msgs
  induction msgs with
  | nil => intro sess tx alt _ _; rfl
  | cons m ms ih =>
    intro sess tx alt hmem hall
    have hstep := unrecognized_step sess tx alt m hmem
      (hall m (List.mem_cons_self m ms))
    unfold run_messages
    have hmem' : (process_buyer_response sess tx alt m).session.state ∈
        confirmation_states := by rw [hstep.2.1]; exact hmem
    have hall' : ∀ x ∈ ms, is_unrecognized
        (process_buyer_response sess tx alt m).session.state x = true := by
      intro x hx; rw [hstep.2.1]; exact hall x (List.mem_cons_of_mem m hx)
    have := ih (process_buyer_response sess tx alt m).session
      (process_buyer_response sess tx alt m).tx
      (process_buyer_response sess tx alt m).alternator hmem' hall'
    rw [this, hstep.2.1]

/-- One step on a confirm answer at the SBP warning: the payment method is
chosen by the alternator's parity, the alternator advances, and the details
are stamped. -/
theorem sbp_confirm_step (sess : ChatSession) (tx : VTx) (alt : Nat)
    (msg : String) (hs : sess.state = .waiting_sbp_confirmation)
    (h : is_affirmative .waiting_sbp_confirmation msg = true) :
    (process_buyer_response sess tx alt msg).session.payment_method =
      some (if alt % 2 == 0 then "SBP" else "Tinkoff") ∧
    (process_buyer_response sess tx alt msg).alternator = alt + 1 ∧
    (process_buyer_response sess tx alt msg).tx.payment_details_sent
      = true := by
  have hc : normalize_response msg = "подтверждаю" ∨
      normalize_response msg = "confirm" ∨
      normalize_response msg = "п" := by
    simpa [is_affirmative] using h
  unfold process_buyer_response
  simp [add_message, hs, process_sbp_confirmation, hc, get_payment_details]

end ChatFlow

/-- C7 (confirmed): payment-method alternation. For two negotiations that
each reach `PAYMENT_DETAILS_SENT` consecutively (the second starting from
the alternator value the first left behind), the chosen payment methods
differ: `_get_payment_details` picks by the parity of the shared counter and
increments it, so consecutive completions alternate between the two
configured methods. -/
theorem C7_alternation (sess1 sess2 : ChatFlow.ChatSession)
    (tx1 tx2 : ChatFlow.VTx) (alt : Nat) (m1 m2 : String)
    (hs1 : sess1.state = .waiting_sbp_confirmation)
    (hs2 : sess2.state = .waiting_sbp_confirmation)
    (h1 : ChatFlow.is_affirmative .waiting_sbp_confirmation m1 = true)
    (h2 : ChatFlow.is_affirmative .waiting_sbp_confirmation m2 = true) :
    (ChatFlow.process_buyer_response sess1 tx1 alt m1).session.payment_method
      ≠
    (ChatFlow.process_buyer_response sess2 tx2
      (ChatFlow.process_buyer_response sess1 tx1 alt m1).alternator
      m2).session.payment_method := by
  obtain ⟨hpm1, halt1, _⟩ := ChatFlow.sbp_confirm_step sess1 tx1 alt m1 hs1 h1
  obtain ⟨hpm2, _, _⟩ := ChatFlow.sbp_confirm_step sess2 tx2
    (ChatFlow.process_buyer_response sess1 tx1 alt m1).alternator m2 hs2 h2
  rw [hpm1, hpm2, halt1]
  rcases Nat.mod_two_eq_zero_or_one alt with hp | hp
  · have hq : (alt + 1) % 2 = 1 := by omega
    simp [hp, hq]
  · have hq : (alt + 1) % 2 = 0 := by omega
    simp [hp, hq]

/-- C7 witness: two consecutive confirmations (`подтверждаю`) starting from
alternator 0 pick different methods. -/
theorem C7_alternation_witness :
    (ChatFlow.process_buyer_response sbp_question_session sample_vtx 0
      "подтверждаю").session.payment_method ≠
    (ChatFlow.process_buyer_response sbp_question_session sample_vtx
      (ChatFlow.process_buyer_response sbp_question_session sample_vtx 0
        "подтверждаю").alternator
      "подтверждаю").session.payment_method :=
  C7_alternation sbp_question_session sbp_question_session sample_vtx
    sample_vtx 0 "подтверждаю" "подтверждаю" rfl rfl (by decide) (by decide)

/-- C8 (confirmed): rejection safety. A buyer answer classified as
negative/deny in any confirmation state rejects the session, tags the owning
transaction's buyer as `fool`, and leaves the payment-details flags exactly
as they were; from then on, any sequence of further buyer messages keeps the
session rejected, never sets its details flag (which was false while still
negotiating), and never touches the transaction again — so payment details
are never sent to that session nor stored on that transaction. -/
theorem C8_rejection_safety (sess : ChatFlow.ChatSession)
    (tx : ChatFlow.VTx) (alt : Nat) (msg : String) (msgs : List String)
    (hmem : sess.state ∈ ChatFlow.confirmation_states)
    (hneg : ChatFlow.is_negative sess.state msg = true)
    (hpds : sess.payment_details_sent = false) :
    (ChatFlow.process_buyer_response sess tx alt msg).session.state
      = .rejected ∧
    (ChatFlow.process_buyer_response sess tx alt msg).tx.buyer_status
      = some "fool" ∧
    (ChatFlow.process_buyer_response sess tx alt msg).tx.payment_details_sent
      = tx.payment_details_sent ∧
    (ChatFlow.process_buyer_response sess tx alt msg).tx.payment_method
      = tx.payment_method ∧
    (ChatFlow.run_messages
        (ChatFlow.process_buyer_response sess tx alt msg).session
        (ChatFlow.process_buyer_response sess tx alt msg).tx
        (ChatFlow.process_buyer_response sess tx alt msg).alternator
        msgs).1.state = .rejected ∧
    (ChatFlow.run_messages
        (ChatFlow.process_buyer_response sess tx alt msg).session
        (ChatFlow.process_buyer_response sess tx alt msg).tx
        (ChatFlow.process_buyer_response sess tx alt msg).alternator
        msgs).1.payment_details_sent = false ∧
    (ChatFlow.run_messages
        (ChatFlow.process_buyer_response sess tx alt msg).session
        (ChatFlow.process_buyer_response sess tx alt msg).tx
        (ChatFlow.process_buyer_response sess tx alt msg).alternator
        msgs).2.1 = (ChatFlow.process_buyer_response sess tx alt msg).tx := by
  obtain ⟨hst, hsp, htx, _⟩ := ChatFlow.negative_step sess tx alt msg hmem hneg
  obtain ⟨hrs, hrp, hrt⟩ := ChatFlow.run_messages_rejected msgs
    (ChatFlow.process_buyer_response sess tx alt msg).session
    (ChatFlow.process_buyer_response sess tx alt msg).tx
    (ChatFlow.process_buyer_response sess tx alt msg).alternator hst
  refine ⟨hst, ?_, ?_, ?_, hrs, ?_, ?_⟩
  · rw [htx]; rfl
  · rw [htx]; rfl
  · rw [htx]; rfl
  · rw [hrp, hsp, hpds]
  · rw [hrt]

/-- C8 witness: a `нет` at the bank-confirmation step followed by `да` and
`подтверждаю` leaves the session rejected, the buyer tagged `fool`, and no
payment details stored anywhere. -/
theorem C8_rejection_safety_witness :
    (ChatFlow.process_buyer_response bank_question_session sample_vtx 0
      "нет").session.state = .rejected ∧
    (ChatFlow.process_buyer_response bank_question_session sample_vtx 0
      "нет").tx.buyer_status = some "fool" ∧
    (ChatFlow.process_buyer_response bank_question_session sample_vtx 0
      "нет").tx.payment_details_sent = sample_vtx.payment_details_sent ∧
    (ChatFlow.process_buyer_response bank_question_session sample_vtx 0
      "нет").tx.payment_method = sample_vtx.payment_method ∧
    (ChatFlow.run_messages
        (ChatFlow.process_buyer_response bank_question_session sample_vtx 0
          "нет").session
        (ChatFlow.process_buyer_response bank_question_session sample_vtx 0
          "нет").tx
        (ChatFlow.process_buyer_response bank_question_session sample_vtx 0
          "нет").alternator
        ["да", "подтверждаю"]).1.state = .rejected ∧
    (ChatFlow.run_messages
        (ChatFlow.process_buyer_response bank_question_session sample_vtx 0
          "нет").session
        (ChatFlow.process_buyer_response bank_question_session sample_vtx 0
          "нет").tx
        (ChatFlow.process_buyer_response bank_question_session sample_vtx 0
          "нет").alternator
        ["да", "подтверждаю"]).1.payment_details_sent = false ∧
    (ChatFlow.run_messages
        (ChatFlow.process_buyer_response bank_question_session sample_vtx 0
          "нет").session
        (ChatFlow.process_buyer_response bank_question_session sample_vtx 0
          "нет").tx
        (ChatFlow.process_buyer_response bank_question_session sample_vtx 0
          "нет").alternator
        ["да", "подтверждаю"]).2.1 =
      (ChatFlow.process_buyer_response bank_question_session sample_vtx 0
        "нет").tx :=
  C8_rejection_safety bank_question_session sample_vtx 0 "нет"
    ["да", "подтверждаю"] (by decide) (by decide) rfl

/-- C9: the claim as stated is false on an explicit input. In the
bank-confirmation state an unrecognized answer (`привет`) is met with the
fixed clarification prompt, which is not the original question verbatim
(the greeting that asked it): the machine re-asks with a different, shorter
prompt. -/
theorem C9_unrecognized_counterexample :
    (ChatFlow.process_buyer_response bank_question_session sample_vtx 0
      "привет").response = some ChatFlow.msg_clarify_yes_no ∧
    some ChatFlow.msg_clarify_yes_no ≠
      ChatFlow.pending_question .waiting_bank_confirmation ∧
    (ChatFlow.process_buyer_response bank_question_session sample_vtx 0
      "привет").session.state = .waiting_bank_confirmation := by
  decide

/-- C9 (amended): an unrecognized answer in any confirmation state does not
advance the state and re-asks with a fixed clarification prompt — which
differs from the original question — leaving the transaction and alternator
untouched; and there is no max-retries bound: any number of consecutive
unrecognized answers leaves the session in the same confirmation state,
never defaulting to rejection. -/
theorem C9_unrecognized_amended (sess : ChatFlow.ChatSession)
    (tx : ChatFlow.VTx) (alt : Nat) (msg : String) (msgs : List String)
    (hmem : sess.state ∈ ChatFlow.confirmation_states)
    (h : ChatFlow.is_unrecognized sess.state msg = true)
    (hall : ∀ m ∈ msgs, ChatFlow.is_unrecognized sess.state m = true) :
    (ChatFlow.process_buyer_response sess tx alt msg).response =
      ChatFlow.clarification_message sess.state ∧
    ChatFlow.clarification_message sess.state ≠
      ChatFlow.pending_question sess.state ∧
    (ChatFlow.process_buyer_response sess tx alt msg).session.state
      = sess.state ∧
    (ChatFlow.process_buyer_response sess tx alt msg).tx = tx ∧
    (ChatFlow.run_messages sess tx alt msgs).1.state = sess.state := by
  obtain ⟨hresp, hstate, htx, _⟩ :=
    ChatFlow.unrecognized_step sess tx alt msg hmem h
  refine ⟨hresp, ?_, hstate, htx,
    ChatFlow.run_messages_unrecognized msgs sess tx alt hmem hall⟩
  have hcases : sess.state = .waiting_bank_confirmation ∨
      sess.state = .waiting_pdf_confirmation ∨
      sess.state = .waiting_sbp_confirmation := by
    simpa [ChatFlow.confirmation_states] using hmem
  rcases hcases with hs | hs | hs <;> rw [hs] <;> decide

/-- C9 witness: the amended theorem at the bank-confirmation state with the
unrecognized answer `привет` repeated three more times. -/
theorem C9_unrecognized_amended_witness :
    (ChatFlow.process_buyer_response bank_question_session sample_vtx 0
      "привет").response =
      ChatFlow.clarification_message bank_question_session.state ∧
    ChatFlow.clarification_message bank_question_session.state ≠
      ChatFlow.pending_question bank_question_session.state ∧
    (ChatFlow.process_buyer_response bank_question_session sample_vtx 0
      "привет").session.state = bank_question_session.state ∧
    (ChatFlow.process_buyer_response bank_question_session sample_vtx 0
      "привет").tx = sample_vtx ∧
    (ChatFlow.run_messages bank_question_session sample_vtx 0
      ["привет", "привет", "привет"]).1.state =
      bank_question_session.state :=
  C9_unrecognized_amended bank_question_session sample_vtx 0 "привет"
    ["привет", "привет", "привет"] (by decide) (by decide) (by decide)

/-- C10 (confirmed): a transaction with no payment phone, no payment card
and amount 0 skips every per-field check of `validate_receipt` (Python
truthiness gates them on the transaction's own fields), so the result is
valid and the transaction is moved to `approved` — for every possible OCR
extraction outcome, hence regardless of the OCR text's content. -/
theorem C10_detailless_receipt_approved
    (tx : TransactionManager.Transaction) (ocr_phone ocr_card : Option String)
    (ocr_amount : Option ℚ)
    (h1 : tx.payment_phone = none) (h2 : tx.payment_card = none)
    (h3 : tx.amount = 0) :
    (TransactionManager.validate_receipt tx ocr_phone ocr_card
      ocr_amount).1.valid = true ∧
    (TransactionManager.validate_receipt tx ocr_phone ocr_card
      ocr_amount).2.status = .approved := by
  unfold TransactionManager.validate_receipt
  simp [h1, h2, h3, pyTruthyStr]

/-- C10 witness: a detail-less transaction is approved even against OCR
extractions reporting an alien phone, card and amount. -/
theorem C10_detailless_receipt_approved_witness :
    (TransactionManager.validate_receipt
      { payment_phone := none, payment_card := none, amount := 0,
        status := .validating, receipt_validated := false }
      (some "79990000000") (some "4321") (some 999999)).1.valid = true ∧
    (TransactionManager.validate_receipt
      { payment_phone := none, payment_card := none, amount := 0,
        status := .validating, receipt_validated := false }
      (some "79990000000") (some "4321") (some 999999)).2.status
      = .approved :=
  C10_detailless_receipt_approved
    { payment_phone := none, payment_card := none, amount := 0,
      status := .validating, receipt_validated := false }
    (some "79990000000") (some "4321") (some 999999) rfl rfl rfl
